import Mathlib

/-!
Verification of the multi-provider chat client core: provider capability
detection, request/response adaptation, the send state machine, model catalog
fetching, and session persistence records, embedded shallowly from the
TypeScript source.
-/

set_option maxHeartbeats 1000000

namespace ChatFE

/-- The four supported inference providers (`ApiConfig["provider"]`). -/
inductive Provider where
  | openai
  | lmstudio
  | gpt4all
  | ollama
  deriving DecidableEq

/-- The reasoning-effort enum (`"low" | "medium" | "high"`). -/
inductive ReasoningEffort where
  | low
  | medium
  | high
  deriving DecidableEq

/-- The string value a `ReasoningEffort` stands for in the TypeScript source. -/
def ReasoningEffort.str : ReasoningEffort → String
  | .low => "low"
  | .medium => "medium"
  | .high => "high"

/-- `ApiConfig` from the source: endpoint, apiKey, provider, optional model,
optional reasoningEffort. -/
structure ApiConfig where
  endpoint : String
  apiKey : String
  provider : Provider
  model : Option String
  reasoningEffort : Option ReasoningEffort
  deriving DecidableEq

/-- `pat` occurs at the start of `s` (the prefix test underlying
JavaScript `String.prototype.includes`). -/
def listStartsWith : List Char → List Char → Bool
  | _, [] => true
  | [], _ :: _ => false
  | c :: cs, p :: ps => c == p && listStartsWith cs ps

/-- `pat` occurs somewhere inside `s`: JavaScript `s.includes(pat)` on the
underlying character lists. -/
def listIncludes : List Char → List Char → Bool
  | [], pat => listStartsWith [] pat
  | c :: cs, pat => listStartsWith (c :: cs) pat || listIncludes cs pat

/-- JavaScript `s.includes(pat)` on strings. -/
def jsIncludes (s pat : String) : Bool :=
  listIncludes s.toList pat.toList

/-- JavaScript `s.toLowerCase()` (ASCII case folding, as `Char.toLower`
performs and as the model identifiers the client handles use). -/
def jsToLower (s : String) : String :=
  String.mk (s.data.map Char.toLower)

/-- `isReasoningModel` from the source (lines 15-23): false for an absent or
empty identifier, otherwise a case-insensitive substring match of the
lowercased name against the fixed keywords. -/
def isReasoningModel : Option String → Bool
  | none => false
  | some modelName =>
    if modelName = "" then false
    else
      let lowerName := jsToLower modelName
      jsIncludes lowerName "o1" || jsIncludes lowerName "reasoning" ||
        jsIncludes lowerName "gpt-oss" || jsIncludes lowerName "deepseek-r1"

theorem listStartsWith_iff (s pat : List Char) :
    listStartsWith s pat = true ↔ ∃ t, s = pat ++ t := by
  induction s generalizing pat with
  | nil =>
    cases pat with
    | nil => simp [listStartsWith]
    | cons p ps => simp [listStartsWith]
  | cons c cs ih =>
    cases pat with
    | nil => simp [listStartsWith]
    | cons p ps =>
      simp only [listStartsWith, Bool.and_eq_true, beq_iff_eq, ih, List.cons_append,
        List.cons.injEq]
      constructor
      · rintro ⟨rfl, t, rfl⟩
        exact ⟨t, rfl, rfl⟩
      · rintro ⟨t, rfl, rfl⟩
        exact ⟨rfl, t, rfl⟩

theorem listIncludes_iff (s pat : List Char) :
    listIncludes s pat = true ↔ ∃ pre post, s = pre ++ pat ++ post := by
  induction s with
  | nil =>
    simp only [listIncludes, listStartsWith_iff]
    constructor
    · rintro ⟨t, ht⟩
      exact ⟨[], t, ht⟩
    · rintro ⟨pre, post, h⟩
      rcases List.append_eq_nil.mp (List.append_eq_nil.mp h.symm).1 with ⟨h1, h2⟩
      subst h1
      exact ⟨post, by simpa using h⟩
  | cons c cs ih =>
    simp only [listIncludes, Bool.or_eq_true, listStartsWith_iff, ih]
    constructor
    · rintro (⟨t, ht⟩ | ⟨pre, post, h⟩)
      · exact ⟨[], t, by simpa using ht⟩
      · exact ⟨c :: pre, post, by simp [h]⟩
    · rintro ⟨pre, post, h⟩
      cases pre with
      | nil =>
        exact Or.inl ⟨post, by simpa using h⟩
      | cons a pre =>
        rw [List.cons_append, List.cons_append, List.cons.injEq] at h
        exact Or.inr ⟨pre, post, h.2⟩

theorem jsIncludes_iff (s pat : String) :
    jsIncludes s pat = true ↔ ∃ pre post, s.toList = pre ++ pat.toList ++ post :=
  listIncludes_iff s.toList pat.toList

/-- C2: `isReasoningModel` returns false on an absent identifier, and on a
present identifier it returns true exactly when the lowercased identifier
contains one of the substrings "o1", "reasoning", "gpt-oss", "deepseek-r1";
in particular it is true on "O1-preview", "deepseek-r1:8b" and "gpt-oss-20b",
and false on "llama3". It is a total Lean function, hence never fails. -/
theorem isReasoningModel_spec :
    isReasoningModel none = false ∧
    (∀ s : String, isReasoningModel (some s) = true ↔
      ∃ kw ∈ (["o1", "reasoning", "gpt-oss", "deepseek-r1"] : List String),
        ∃ pre post : List Char, (jsToLower s).toList = pre ++ kw.toList ++ post) ∧
    isReasoningModel (some "O1-preview") = true ∧
    isReasoningModel (some "deepseek-r1:8b") = true ∧
    isReasoningModel (some "gpt-oss-20b") = true ∧
    isReasoningModel (some "llama3") = false := by
  refine ⟨rfl, ?_, by decide, by decide, by decide, by decide⟩
  intro s
  by_cases hs : s = ""
  · subst hs
    simp only [isReasoningModel, if_pos rfl]
    constructor
    · intro h
      exact absurd h (by simp)
    · rintro ⟨kw, hkw, pre, post, h⟩
      have h0 : (jsToLower "").toList = ([] : List Char) := by decide
      rw [h0] at h
      rcases List.append_eq_nil.mp (List.append_eq_nil.mp h.symm).1 with ⟨-, h2⟩
      simp only [List.mem_cons, List.mem_singleton] at hkw
      rcases hkw with rfl | rfl | rfl | rfl | hfalse
      · exact absurd h2 (by decide)
      · exact absurd h2 (by decide)
      · exact absurd h2 (by decide)
      · exact absurd h2 (by decide)
      · simp at hfalse
  · simp only [isReasoningModel, if_neg hs, Bool.or_eq_true, jsIncludes_iff]
    constructor
    · rintro (((h | h) | h) | h)
      · exact ⟨"o1", by simp, h⟩
      · exact ⟨"reasoning", by simp, h⟩
      · exact ⟨"gpt-oss", by simp, h⟩
      · exact ⟨"deepseek-r1", by simp, h⟩
    · rintro ⟨kw, hkw, h⟩
      simp only [List.mem_cons, List.mem_singleton] at hkw
      rcases hkw with rfl | rfl | rfl | rfl | h0
      · exact Or.inl (Or.inl (Or.inl h))
      · exact Or.inl (Or.inl (Or.inr h))
      · exact Or.inl (Or.inr h)
      · exact Or.inr h
      · simp at h0

/-- A `Message` of the conversation (source lines 517-525). Timestamps are
epoch milliseconds; `tokensPerSecond` is modelled as an exact rational. -/
structure Message where
  role : String
  content : String
  model : Option String := none
  provider : Option Provider := none
  reasoningEffort : Option String := none
  tokensPerSecond : Option ℚ := none
  timestamp : Option Nat := none
  deriving DecidableEq

/-- A `{role, content}` pair as placed in the request body. -/
structure ApiMessage where
  role : String
  content : String
  deriving DecidableEq

/-- The request body shape of `sendMessage` (source lines 729-758): optional
fields are absent (`none`) when the corresponding spread adds nothing. -/
structure RequestBody where
  model : String
  messages : List ApiMessage
  stream : Option Bool
  think : Option String
  reasoning_effort : Option String
  deriving DecidableEq

/-- JavaScript `value || fallback` on an optional string: `undefined` and the
empty string are falsy. -/
def jsOrElse (value : Option String) (fallback : String) : String :=
  match value with
  | some s => if s = "" then fallback else s
  | none => fallback

/-- The message list composed for the request (source lines 721-725):
optional system message, prior messages reduced to role/content, then the
new user message. -/
def buildApiMessages (systemPrompt : String) (messages : List Message)
    (userInput : String) : List ApiMessage :=
  (if systemPrompt = "" then [] else [{ role := "system", content := systemPrompt }]) ++
    messages.map (fun m => { role := m.role, content := m.content }) ++
    [{ role := "user", content := userInput }]

/-- The per-provider chat endpoint (source lines 709-718). -/
def endpointFor (config : ApiConfig) : String :=
  match config.provider with
  | .ollama => config.endpoint ++ "/api/chat"
  | .gpt4all => "/api/gpt4all/v1/chat/completions"
  | _ => config.endpoint ++ "/v1/chat/completions"

/-- The request body built per provider (source lines 728-758). -/
def buildRequestBody (config : ApiConfig) (apiMessages : List ApiMessage) :
    RequestBody :=
  let shouldUseReasoning := isReasoningModel config.model
  match config.provider with
  | .ollama =>
      { model := jsOrElse config.model "llama2"
        messages := apiMessages
        stream := some false
        think :=
          if shouldUseReasoning then Option.map ReasoningEffort.str config.reasoningEffort
          else none
        reasoning_effort := none }
  | .gpt4all =>
      { model := jsOrElse config.model "gpt-3.5-turbo"
        messages := apiMessages
        stream := none
        think := none
        reasoning_effort := none }
  | _ =>
      { model := jsOrElse config.model "gpt-3.5-turbo"
        messages := apiMessages
        stream := none
        think := none
        reasoning_effort :=
          if shouldUseReasoning then Option.map ReasoningEffort.str config.reasoningEffort
          else none }

/-- The fields of the decoded JSON response body that `sendMessage` reads
(source lines 777-792): `data.message?.content`,
`data.choices?.[0]?.message?.content`, `data.eval_count`,
`data.usage?.total_tokens`; `none` models an absent field. -/
structure ResponseData where
  messageContent : Option String
  choice0Content : Option String
  eval_count : Option Nat
  usage_total_tokens : Option Nat
  deriving DecidableEq

/-- The raw content field read for a provider (source lines 780-782, before
the `|| "(no response)"` fallback). -/
def rawContent : Provider → ResponseData → Option String
  | .ollama, data => data.messageContent
  | _, data => data.choice0Content

/-- Content extraction with the placeholder fallback (source lines 780-782). -/
def extractContent (provider : Provider) (data : ResponseData) : String :=
  jsOrElse (rawContent provider data) "(no response)"

/-- Token-count extraction per provider (source lines 785-792). -/
def extractTotalTokens : Provider → ResponseData → Option Nat
  | .ollama, data => data.eval_count
  | _, data => data.usage_total_tokens

/-- `tokensPerSecond` (source lines 795-797): JavaScript
`totalTokens && elapsedSeconds > 0 ? totalTokens / elapsedSeconds : undefined`;
a numeric `totalTokens` is truthy exactly when it is nonzero. -/
def computeTokensPerSecond (totalTokens : Option Nat) (elapsedSeconds : ℚ) :
    Option ℚ :=
  match totalTokens with
  | some n => if n ≠ 0 ∧ 0 < elapsedSeconds then some ((n : ℚ) / elapsedSeconds) else none
  | none => none

/-- How the awaited HTTP call resolves, as `sendMessage` observes it:
a non-2xx status (which the code turns into a thrown
`Error("HTTP status: body")`), a transport-level failure (the thrown value
stringified), or a decoded 2xx JSON body. -/
inductive SendOutcome where
  | httpError (status : Nat) (bodyText : String)
  | networkError (message : String)
  | ok (data : ResponseData)
  deriving DecidableEq

/-- The outcome is a failure (anything but a decoded 2xx body). -/
def SendOutcome.isFailure : SendOutcome → Bool
  | .ok _ => false
  | _ => true

/-- `String(e)` for the caught value in the error path (source line 813):
for the thrown `new Error` of the non-2xx branch this is
`"Error: HTTP status: body"`. -/
def jsErrorString : SendOutcome → String
  | .httpError status bodyText => "Error: HTTP " ++ toString status ++ ": " ++ bodyText
  | .networkError message => message
  | .ok _ => ""

/-- The HTTP request `sendMessage` issues (source lines 760-767). -/
structure SentRequest where
  endpoint : String
  body : RequestBody
  hasAuthHeader : Bool
  deriving DecidableEq

/-- The conversation state the controller mutates: the message sequence, the
input box and the `loading` flag. -/
structure ChatState where
  messages : List Message
  input : String
  loading : Bool
  deriving DecidableEq

/-- The user message appended at send time (source line 703). -/
def userMessageFor (input : String) (now : Nat) : Message :=
  { role := "user", content := input, timestamp := some now }

/-- `config.model || (config.provider === "ollama" ? "llama2" : "gpt-3.5-turbo")`
(source lines 799 and 810). -/
def usedModelFor (config : ApiConfig) : String :=
  jsOrElse config.model (if config.provider = Provider.ollama then "llama2" else "gpt-3.5-turbo")

/-- The assistant message appended on success (source lines 800-808). -/
def okAssistantMessage (config : ApiConfig) (data : ResponseData) (endTime : Nat)
    (elapsedSeconds : ℚ) : Message :=
  { role := "assistant"
    content := extractContent config.provider data
    model := some (usedModelFor config)
    provider := some config.provider
    reasoningEffort :=
      if isReasoningModel config.model then
        Option.map ReasoningEffort.str config.reasoningEffort
      else none
    tokensPerSecond := computeTokensPerSecond (extractTotalTokens config.provider data) elapsedSeconds
    timestamp := some endTime }

/-- The assistant-role error message appended in the catch branch
(source lines 810-817). -/
def errorAssistantMessage (config : ApiConfig) (tError : String)
    (outcome : SendOutcome) (now : Nat) : Message :=
  { role := "assistant"
    content := tError ++ jsErrorString outcome
    model := some (usedModelFor config)
    provider := some config.provider
    timestamp := some now }

/-- `sendMessage` (source lines 698-820) as one state transition: given the
configuration, the system prompt, the error label `t('error')`, the current
state, the wall-clock times around the HTTP call and how that call resolves,
it yields the new state and the request issued (`none` when the guard on
line 699 rejects the submission). -/
def sendMessage (config : ApiConfig) (systemPrompt : String) (tError : String)
    (state : ChatState) (startTime endTime : Nat) (outcome : SendOutcome) :
    ChatState × Option SentRequest :=
  if state.input == "" || state.loading then (state, none)
  else
    let messagesWithUser := state.messages ++ [userMessageFor state.input startTime]
    let req : SentRequest :=
      { endpoint := endpointFor config
        body := buildRequestBody config (buildApiMessages systemPrompt state.messages state.input)
        hasAuthHeader := config.apiKey != "" }
    match outcome with
    | .ok data =>
        let elapsedSeconds : ℚ := ((endTime : ℚ) - (startTime : ℚ)) / 1000
        ({ messages := messagesWithUser ++ [okAssistantMessage config data endTime elapsedSeconds]
           input := ""
           loading := false }, some req)
    | e =>
        ({ messages := messagesWithUser ++ [errorAssistantMessage config tError e endTime]
           input := ""
           loading := false }, some req)

/-- `ModelInfo` (source lines 25-28). -/
structure ModelInfo where
  id : String
  supportsReasoning : Bool
  deriving DecidableEq

/-- What a successful, well-formed per-model detail response contributes
(source lines 106-109): the optional `modelfile` text and the text
`JSON.stringify(detail.parameters || {})`. -/
structure OllamaDetail where
  modelfile : Option String
  parametersText : String
  deriving DecidableEq

/-- The extended capability check applied on a successful detail response
(source lines 108-113). -/
def extendedSupportsReasoning (name : String) (detail : OllamaDetail) : Bool :=
  let modelfile := jsOrElse (Option.map jsToLower detail.modelfile) ""
  let parameters := jsToLower detail.parametersText
  jsIncludes modelfile "reasoning" || jsIncludes parameters "reasoning" ||
    isReasoningModel (some name)

/-- One model's classification during the ollama catalog fetch
(source lines 98-120): the extended check when its detail lookup succeeded,
the identifier-only check when that lookup failed or was malformed. -/
def classifyOllamaModel (name : String) (detailOutcome : Option OllamaDetail) :
    ModelInfo :=
  match detailOutcome with
  | some detail => { id := name, supportsReasoning := extendedSupportsReasoning name detail }
  | none => { id := name, supportsReasoning := isReasoningModel (some name) }

/-- The ollama branch of `fetchModels` (source lines 94-121): every listed
model name is classified, each from its own detail-lookup outcome. -/
def fetchOllamaModelInfos (modelNames : List String)
    (detailLookup : String → Option OllamaDetail) : List ModelInfo :=
  modelNames.map (fun name => classifyOllamaModel name (detailLookup name))

/-- The model-selection side effect after a successful catalog fetch
(source lines 131-137): `modelInfos.length > 0 && (!config.model ||
!modelIds.includes(config.model))` triggers `setConfig` with the first id. -/
def updateModelAfterFetch (config : ApiConfig) (modelInfos : List ModelInfo) :
    ApiConfig :=
  let modelIds := modelInfos.map ModelInfo.id
  let modelMissing : Bool :=
    match config.model with
    | none => true
    | some m => m == "" || !(modelIds.contains m)
  match modelInfos with
  | [] => config
  | first :: _ => if modelMissing then { config with model := some first.id } else config

/-- `ChatSession` (source lines 527-533). -/
structure ChatSession where
  id : String
  title : String
  messages : List Message
  createdAt : Nat
  updatedAt : Nat
  deriving DecidableEq

/-- The session record built and upserted whenever the message sequence
changes (source lines 629-643): `now` is the single `Date.now()` moment of
that effect, written into both `createdAt` and `updatedAt`. -/
def buildSessionRecord (currentSessionId : String) (messages : List Message)
    (now : Nat) : ChatSession :=
  let title :=
    jsOrElse (Option.map (fun m => m.content.take 50)
      (messages.find? (fun m => m.role == "user"))) "New Chat"
  { id := currentSessionId
    title := title
    messages := messages
    createdAt := now
    updatedAt := now }

/-- C1: for every configuration and message list, the built request body
carries `think` exactly when the provider is ollama, the selected model is
reasoning-capable and a reasoning effort is set (and then it equals that
effort), and carries `reasoning_effort` exactly when the provider is openai
or lmstudio under the same capability/effort condition; gpt4all never gets
either field. -/
theorem buildRequestBody_reasoning_spec (config : ApiConfig) (apiMessages : List ApiMessage) :
    ((buildRequestBody config apiMessages).think =
      if config.provider = Provider.ollama ∧ isReasoningModel config.model = true then
        Option.map ReasoningEffort.str config.reasoningEffort
      else none) ∧
    ((buildRequestBody config apiMessages).reasoning_effort =
      if (config.provider = Provider.openai ∨ config.provider = Provider.lmstudio) ∧
          isReasoningModel config.model = true then
        Option.map ReasoningEffort.str config.reasoningEffort
      else none) := by
  obtain ⟨endpoint, apiKey, provider, model, reasoningEffort⟩ := config
  cases provider <;> cases h : isReasoningModel model <;>
    simp [buildRequestBody, h]

/-- C3: when a send is already in progress (`loading`) or the input is empty,
submitting leaves the conversation state unchanged and issues no HTTP
request; a send is entered only from the idle state with non-empty input. -/
theorem sendMessage_guard_spec (config : ApiConfig) (systemPrompt tError : String)
    (state : ChatState) (startTime endTime : Nat) (outcome : SendOutcome)
    (h : state.input = "" ∨ state.loading = true) :
    sendMessage config systemPrompt tError state startTime endTime outcome = (state, none) := by
  rcases h with h | h <;> simp [sendMessage, h]

/-- Witness for C3 at a concrete idle-but-empty-input state. -/
theorem sendMessage_guard_spec_witness :
    sendMessage
      { endpoint := "http://localhost:11434", apiKey := "", provider := Provider.ollama,
        model := none, reasoningEffort := none }
      "" "Error: "
      { messages := [], input := "", loading := false } 0 1000
      (SendOutcome.networkError "TypeError: Failed to fetch")
      = ({ messages := [], input := "", loading := false }, none) :=
  sendMessage_guard_spec _ _ _ _ _ _ _ (Or.inl rfl)

/-- C4: every failing send (non-2xx status or transport error) still appends
exactly one assistant-role message, whose content is the error description
`t('error') + String(e)`, right after the user message of this send, and the
controller returns to the idle (non-loading) state; the request had been
issued. -/
theorem sendMessage_failure_spec (config : ApiConfig) (systemPrompt tError : String)
    (state : ChatState) (startTime endTime : Nat) (outcome : SendOutcome)
    (hin : state.input ≠ "") (hload : state.loading = false)
    (hfail : outcome.isFailure = true) :
    ∃ userMsg errorMsg : Message,
      (sendMessage config systemPrompt tError state startTime endTime outcome).1.messages
        = state.messages ++ [userMsg, errorMsg] ∧
      userMsg.role = "user" ∧ userMsg.content = state.input ∧
      errorMsg.role = "assistant" ∧
      errorMsg.content = tError ++ jsErrorString outcome ∧
      (sendMessage config systemPrompt tError state startTime endTime outcome).1.loading = false ∧
      ((sendMessage config systemPrompt tError state startTime endTime outcome).2).isSome = true := by
  have hguard : (state.input == "" || state.loading) = false := by
    simp [hin, hload]
  cases outcome with
  | ok data => simp [SendOutcome.isFailure] at hfail
  | httpError status bodyText =>
      exact ⟨userMessageFor state.input startTime,
        errorAssistantMessage config tError (SendOutcome.httpError status bodyText) endTime,
        by simp [sendMessage, hguard], rfl, rfl, rfl, rfl,
        by simp [sendMessage, hguard], by simp [sendMessage, hguard]⟩
  | networkError message =>
      exact ⟨userMessageFor state.input startTime,
        errorAssistantMessage config tError (SendOutcome.networkError message) endTime,
        by simp [sendMessage, hguard], rfl, rfl, rfl, rfl,
        by simp [sendMessage, hguard], by simp [sendMessage, hguard]⟩

/-- Witness for C4 at a concrete failing send. -/
theorem sendMessage_failure_spec_witness :
    ∃ userMsg errorMsg : ChatFE.Message,
      (sendMessage
        { endpoint := "http://localhost:11434", apiKey := "", provider := Provider.ollama,
          model := none, reasoningEffort := none }
        "" "Error: "
        { messages := [], input := "hello", loading := false } 0 1000
        (SendOutcome.httpError 500 "boom")).1.messages
        = [] ++ [userMsg, errorMsg] ∧
      userMsg.role = "user" ∧ userMsg.content = "hello" ∧
      errorMsg.role = "assistant" ∧
      errorMsg.content = "Error: " ++ jsErrorString (SendOutcome.httpError 500 "boom") ∧
      (sendMessage
        { endpoint := "http://localhost:11434", apiKey := "", provider := Provider.ollama,
          model := none, reasoningEffort := none }
        "" "Error: "
        { messages := [], input := "hello", loading := false } 0 1000
        (SendOutcome.httpError 500 "boom")).1.loading = false ∧
      ((sendMessage
        { endpoint := "http://localhost:11434", apiKey := "", provider := Provider.ollama,
          model := none, reasoningEffort := none }
        "" "Error: "
        { messages := [], input := "hello", loading := false } 0 1000
        (SendOutcome.httpError 500 "boom")).2).isSome = true :=
  sendMessage_failure_spec _ _ _ _ _ _ _ (by decide) rfl rfl

/-- C5: the message list placed in the request body is exactly one system
message when the system prompt is non-empty (and none otherwise), followed by
the prior messages reduced to role/content pairs in their original order,
followed by the new user message; nothing is dropped, truncated or
reordered. -/
theorem buildApiMessages_spec (systemPrompt : String) (messages : List Message)
    (userInput : String) :
    ((buildApiMessages systemPrompt messages userInput).length
        = (if systemPrompt = "" then 0 else 1) + messages.length + 1) ∧
    (systemPrompt ≠ "" →
      (buildApiMessages systemPrompt messages userInput).head?
        = some { role := "system", content := systemPrompt }) ∧
    (∀ i, i < messages.length →
      (buildApiMessages systemPrompt messages userInput)[(if systemPrompt = "" then 0 else 1) + i]?
        = Option.map (fun m => ({ role := m.role, content := m.content } : ApiMessage))
            messages[i]?) ∧
    ((buildApiMessages systemPrompt messages userInput).getLast?
        = some { role := "user", content := userInput }) := by
  by_cases hs : systemPrompt = ""
  · refine ⟨by simp [buildApiMessages, hs], fun h => absurd hs h, ?_, ?_⟩
    · intro i hi
      simp only [buildApiMessages, if_pos hs, List.nil_append, Nat.zero_add]
      simp [List.getElem?_append, hi]
    · simp only [buildApiMessages, if_pos hs, List.nil_append]
      exact List.getLast?_concat _
  · refine ⟨?_, fun _ => by simp [buildApiMessages, hs], ?_, ?_⟩
    · simp only [buildApiMessages, if_neg hs]
      simp [Nat.add_comm]
    · intro i hi
      simp only [buildApiMessages, if_neg hs, List.append_assoc, List.singleton_append,
        Nat.add_comm 1 i]
      simp [List.getElem?_append, hi]
    · simp only [buildApiMessages, if_neg hs]
      exact List.getLast?_concat _

/-- C6: whenever the assistant message's tokensPerSecond is set, the token
count was present (`eval_count` for ollama, `usage.total_tokens` otherwise),
the elapsed time was positive, and the value equals totalTokens divided by
elapsedSeconds — a non-negative (and, being rational, finite) number; in
particular for ollama with elapsed = 2 s and eval_count = 20 it is 10. -/
theorem tokensPerSecond_spec :
    (∀ data : ResponseData, extractTotalTokens Provider.ollama data = data.eval_count) ∧
    (∀ (provider : Provider) (data : ResponseData), provider ≠ Provider.ollama →
      extractTotalTokens provider data = data.usage_total_tokens) ∧
    (∀ (totalTokens : Option Nat) (elapsedSeconds q : ℚ),
      computeTokensPerSecond totalTokens elapsedSeconds = some q →
      ∃ n : Nat, totalTokens = some n ∧ 0 < elapsedSeconds ∧
        q = (n : ℚ) / elapsedSeconds ∧ 0 ≤ q) ∧
    computeTokensPerSecond
      (extractTotalTokens Provider.ollama
        { messageContent := some "hi", choice0Content := none,
          eval_count := some 20, usage_total_tokens := none }) 2 = some 10 := by
  refine ⟨fun _ => rfl, ?_, ?_, ?_⟩
  · intro provider data h
    cases provider <;> first | rfl | exact absurd rfl h
  · intro totalTokens elapsedSeconds q h
    cases totalTokens with
    | none => simp [computeTokensPerSecond] at h
    | some n =>
      simp only [computeTokensPerSecond] at h
      by_cases hc : n ≠ 0 ∧ 0 < elapsedSeconds
      · rw [if_pos hc] at h
        obtain ⟨hn, he⟩ := hc
        have hq : ((n : ℚ) / elapsedSeconds) = q := Option.some.inj h
        exact ⟨n, rfl, he, hq.symm, hq ▸ div_nonneg (Nat.cast_nonneg n) he.le⟩
      · rw [if_neg hc] at h
        exact absurd h (by simp)
  · show computeTokensPerSecond (some 20) 2 = some 10
    rw [computeTokensPerSecond, if_pos ⟨by norm_num, by norm_num⟩]
    norm_num

/-- C7: a 2xx response whose decoded body has no extractable content still
yields a normal assistant message whose content is "(no response)": the send
takes the success path (user message plus one assistant message appended,
state back to idle), never the error path. -/
theorem sendMessage_noContent_spec (config : ApiConfig) (systemPrompt tError : String)
    (state : ChatState) (startTime endTime : Nat) (data : ResponseData)
    (hin : state.input ≠ "") (hload : state.loading = false)
    (hraw : rawContent config.provider data = none) :
    ∃ userMsg assistantMsg : Message,
      (sendMessage config systemPrompt tError state startTime endTime
          (SendOutcome.ok data)).1.messages
        = state.messages ++ [userMsg, assistantMsg] ∧
      assistantMsg.role = "assistant" ∧
      assistantMsg.content = "(no response)" ∧
      (sendMessage config systemPrompt tError state startTime endTime
          (SendOutcome.ok data)).1.loading = false := by
  have hguard : (state.input == "" || state.loading) = false := by
    simp [hin, hload]
  refine ⟨userMessageFor state.input startTime,
    okAssistantMessage config data endTime (((endTime : ℚ) - (startTime : ℚ)) / 1000),
    by simp [sendMessage, hguard], rfl, ?_, by simp [sendMessage, hguard]⟩
  simp [okAssistantMessage, extractContent, hraw, jsOrElse]

/-- Witness for C7 at a concrete contentless 2xx response. -/
theorem sendMessage_noContent_spec_witness :
    ∃ userMsg assistantMsg : ChatFE.Message,
      (sendMessage
        { endpoint := "http://localhost:11434", apiKey := "", provider := Provider.ollama,
          model := none, reasoningEffort := none }
        "" "Error: "
        { messages := [], input := "hello", loading := false } 0 1000
        (SendOutcome.ok
          { messageContent := none, choice0Content := none,
            eval_count := none, usage_total_tokens := none })).1.messages
        = [] ++ [userMsg, assistantMsg] ∧
      assistantMsg.role = "assistant" ∧
      assistantMsg.content = "(no response)" ∧
      (sendMessage
        { endpoint := "http://localhost:11434", apiKey := "", provider := Provider.ollama,
          model := none, reasoningEffort := none }
        "" "Error: "
        { messages := [], input := "hello", loading := false } 0 1000
        (SendOutcome.ok
          { messageContent := none, choice0Content := none,
            eval_count := none, usage_total_tokens := none })).1.loading = false :=
  sendMessage_noContent_spec _ _ _ _ _ _ _ (by decide) rfl rfl

/-- C8: during an ollama catalog fetch, whatever each per-model detail lookup
does, every listed model is returned at its position: a model whose lookup
failed or was malformed is classified by the identifier-only check, one whose
lookup succeeded by the extended check; no single failure aborts the fetch. -/
theorem fetchOllamaModelInfos_spec (modelNames : List String)
    (detailLookup : String → Option OllamaDetail) :
    (fetchOllamaModelInfos modelNames detailLookup).length = modelNames.length ∧
    ∀ i (h : i < modelNames.length),
      ((fetchOllamaModelInfos modelNames detailLookup)[i]?).map ModelInfo.id
          = some (modelNames.get ⟨i, h⟩) ∧
      (detailLookup (modelNames.get ⟨i, h⟩) = none →
        ((fetchOllamaModelInfos modelNames detailLookup)[i]?).map ModelInfo.supportsReasoning
          = some (isReasoningModel (some (modelNames.get ⟨i, h⟩)))) ∧
      (∀ detail, detailLookup (modelNames.get ⟨i, h⟩) = some detail →
        ((fetchOllamaModelInfos modelNames detailLookup)[i]?).map ModelInfo.supportsReasoning
          = some (extendedSupportsReasoning (modelNames.get ⟨i, h⟩) detail)) := by
  refine ⟨by simp [fetchOllamaModelInfos], ?_⟩
  intro i h
  have hidx : (fetchOllamaModelInfos modelNames detailLookup)[i]?
      = some (classifyOllamaModel (modelNames.get ⟨i, h⟩)
          (detailLookup (modelNames.get ⟨i, h⟩))) := by
    simp [fetchOllamaModelInfos, List.getElem?_map, List.getElem?_eq_getElem h]
  refine ⟨?_, ?_, ?_⟩
  · rw [hidx]
    cases detailLookup (modelNames.get ⟨i, h⟩) <;> rfl
  · intro hnone
    rw [hidx, hnone]
    rfl
  · intro detail hsome
    rw [hidx, hsome]
    rfl

/-- C9 counterexample: with the configured model equal to the empty string
and a catalog whose identifier set contains the empty string, the claim says
the model is left untouched, but the code reassigns it to the first catalog
entry. -/
theorem updateModelAfterFetch_counterexample :
    (([{ id := "a", supportsReasoning := false },
       { id := "", supportsReasoning := false }] : List ModelInfo).map
        ModelInfo.id).contains "" = true ∧
    ({ endpoint := "http://localhost:11434", apiKey := "", provider := Provider.ollama,
       model := some "", reasoningEffort := none } : ApiConfig).model = some "" ∧
    (updateModelAfterFetch
      { endpoint := "http://localhost:11434", apiKey := "", provider := Provider.ollama,
        model := some "", reasoningEffort := none }
      [{ id := "a", supportsReasoning := false },
       { id := "", supportsReasoning := false }]).model = some "a" := by
  refine ⟨by decide, rfl, ?_⟩
  rfl

/-- C9 (amended): after a successful catalog fetch, a configured model that
is a non-empty identifier present in the returned identifier set is left
untouched; if the model is unset, empty, or not present, and the catalog is
non-empty, the model is set to the first returned identifier (and only the
model field changes); an empty catalog changes nothing. -/
theorem updateModelAfterFetch_spec (config : ApiConfig) :
    (∀ (modelInfos : List ModelInfo) (m : String), config.model = some m → m ≠ "" →
      (modelInfos.map ModelInfo.id).contains m = true →
      updateModelAfterFetch config modelInfos = config) ∧
    (∀ (first : ModelInfo) (rest : List ModelInfo),
      (config.model = none ∨ config.model = some "" ∨
        (∃ m, config.model = some m ∧
          ((first :: rest).map ModelInfo.id).contains m = false)) →
      updateModelAfterFetch config (first :: rest)
        = { config with model := some first.id }) ∧
    updateModelAfterFetch config [] = config := by
  refine ⟨?_, ?_, rfl⟩
  · intro modelInfos m hm hne hmem
    cases modelInfos with
    | nil => rfl
    | cons first rest =>
      have hcond : (m == "" || !((List.map ModelInfo.id (first :: rest)).contains m)) = false := by
        rw [hmem]
        simp [hne]
      simp only [updateModelAfterFetch, hm]
      rw [hcond]
      simp
  · intro first rest hcase
    rcases hcase with hnone | hempty | ⟨m, hm, hmem⟩
    · simp [updateModelAfterFetch, hnone]
    · simp [updateModelAfterFetch, hempty]
    · have hcond : (m == "" || !((List.map ModelInfo.id (first :: rest)).contains m)) = true := by
        rw [hmem]
        simp
      simp only [updateModelAfterFetch, hm]
      rw [hcond]
      simp

/-- C10: the record upserted on every message append (source lines 629-643)
writes the save moment into `createdAt` as well as `updatedAt`, so a second
append at time 2000 persists `createdAt = 2000` although the session was
created at time 1000: the code rewrites `createdAt` on every append instead
of keeping the creation time (the id is kept). -/
theorem buildSessionRecord_createdAt_rewritten :
    (∀ (sessionId : String) (messages : List Message) (now : Nat),
      (buildSessionRecord sessionId messages now).createdAt = now ∧
      (buildSessionRecord sessionId messages now).updatedAt = now ∧
      (buildSessionRecord sessionId messages now).id = sessionId) ∧
    (buildSessionRecord "session-1" [{ role := "user", content := "hello" }] 1000).createdAt
      = 1000 ∧
    (buildSessionRecord "session-1"
      [{ role := "user", content := "hello" }, { role := "assistant", content := "hi" }]
      2000).createdAt = 2000 ∧
    (buildSessionRecord "session-1"
        [{ role := "user", content := "hello" }, { role := "assistant", content := "hi" }]
        2000).createdAt
      ≠ (buildSessionRecord "session-1" [{ role := "user", content := "hello" }] 1000).createdAt := by
  exact ⟨fun _ _ _ => ⟨rfl, rfl, rfl⟩, rfl, rfl, by decide⟩

end ChatFE
